import Mathlib

/-!
Shallow embedding of the product CRUD service of marcusvsbarros/apiAWS-mySql.

The repository contains two express entry points.  The file src/server.js
validates the three body fields before issuing the INSERT or UPDATE; the
older variant src/unnamed/part_000 selects the schema with a USE statement
at the start of every handler and performs no field validation at all.

Request bodies are parsed JSON, so the destructured fields are JavaScript
values: an absent field is undefined, and the guards use JavaScript
truthiness and the loose comparison with null.  The MySQL table is modelled
as a list of rows together with the AUTO_INCREMENT counter; the affectedRows
field of an UPDATE result counts matched rows, because the node driver
enables the FOUND_ROWS connection flag by default.  Each handler returns the
HTTP status, the response body, the successor database state, and the list
of SQL statements it issued (a statement refused client side, such as an
undefined bind parameter, is never issued).
-/

namespace ApiAws

/-- A JavaScript value as it occurs in a parsed JSON request body.  A field
absent from the body destructures to undefined.  Numbers are modelled as
rationals; the claims never depend on floating-point rounding. -/
inductive JsValue where
  | undefined : JsValue
  | null : JsValue
  | str : String → JsValue
  | num : Rat → JsValue
  | boolean : Bool → JsValue
deriving DecidableEq

/-- JavaScript truthiness, as tested by the guards of the form if (!Nome).
The empty string, the number zero, false, null and undefined are falsy. -/
def JsValue.truthy : JsValue → Bool
  | .undefined => false
  | .null => false
  | .str s => !(s == "")
  | .num n => !(n == 0)
  | .boolean b => b

/-- The loose JavaScript comparison v == null: true exactly on null and on
undefined. -/
def JsValue.isLooseNull : JsValue → Bool
  | .undefined => true
  | .null => true
  | _ => false

/-- One row of the produto table: Id INT AUTO_INCREMENT PRIMARY KEY, and the
three NOT NULL payload columns. -/
structure Row where
  Id : Nat
  Nome : JsValue
  Descricao : JsValue
  Preco : JsValue
deriving DecidableEq

/-- State of the MySQL server relevant to this API: whether the configured
database and the produto table exist, the table contents, and the next
AUTO_INCREMENT value.  The field issued is a ghost history of every id the
server returned from a successful INSERT; it takes part in no branch of the
handlers and only lets the never-reissued property be stated. -/
structure Db where
  dbExists : Bool
  tableExists : Bool
  rows : List Row
  nextId : Nat
  issued : List Nat
deriving DecidableEq

/-- The environment configuration the handlers read: only the schema name
DB_NAME enters any SQL text. -/
structure Config where
  dbName : String
deriving DecidableEq

/-- One statement handed to pool.query: the SQL text and the bound
parameters. -/
structure Query where
  sql : String
  params : List JsValue
deriving DecidableEq

/-- The body of an HTTP response of this API. -/
inductive RespBody where
  | text : String → RespBody
  | jsonError : String → RespBody
  | jsonMessage : String → RespBody
  | jsonId : Nat → RespBody
  | jsonRows : List Row → RespBody
  | jsonRow : Row → RespBody
deriving DecidableEq

/-- Result of one handler invocation: HTTP status, response body, successor
database state, and the SQL statements issued to the pool. -/
structure Outcome where
  status : Nat
  body : RespBody
  db : Db
  trace : List Query
deriving DecidableEq

/-- The destructured request body: const (Nome, Descricao, Preco) = req.body.
A field missing from the JSON object destructures to undefined. -/
structure ReqBody where
  Nome : JsValue
  Descricao : JsValue
  Preco : JsValue
deriving DecidableEq

/-- The validation guard shared by POST /produtos and PUT /produtos in
server.js: if (!Nome or !Descricao or Preco == null). -/
def missingFields (b : ReqBody) : Bool :=
  !b.Nome.truthy || !b.Descricao.truthy || b.Preco.isLooseNull

def selectAllSql : String := "SELECT * FROM produto"

def selectByIdSql : String := "SELECT * FROM produto WHERE Id = ?"

def insertSql : String := "INSERT INTO produto (Nome, Descricao, Preco) VALUES (?, ?, ?)"

def updateSql : String := "UPDATE produto SET Nome = ?, Descricao = ?, Preco = ? WHERE Id = ?"

def deleteSql : String := "DELETE FROM produto WHERE Id = ?"

/-- The multi-statement init-db text of server.js lines 72 to 81.  The schema
name from configuration is interpolated into the SQL text itself; it is the
single non-parameterized value in the whole program. -/
def createDbSql (dbName : String) : String :=
  "CREATE DATABASE IF NOT EXISTS \x60" ++ dbName ++ "\x60; USE \x60" ++ dbName ++
    "\x60; CREATE TABLE IF NOT EXISTS produto (Id INT AUTO_INCREMENT PRIMARY KEY, Nome VARCHAR(255) NOT NULL, Descricao VARCHAR(255) NOT NULL, Preco DECIMAL(10,2) NOT NULL);"

/-- The schema-selection statement prefixed to every legacy handler. -/
def useDbSql (dbName : String) : String :=
  "USE \x60" ++ dbName ++ "\x60"

/-- The init-db text of src/unnamed/part_000 lines 51 to 57. -/
def legacyCreateDbSql (dbName : String) : String :=
  "CREATE DATABASE IF NOT EXISTS \x60" ++ dbName ++ "\x60; USE \x60" ++ dbName ++
    "\x60; CREATE TABLE IF NOT EXISTS produto ( Id INT AUTO_INCREMENT PRIMARY KEY, Nome VARCHAR(255) NOT NULL, Descricao VARCHAR(255) NOT NULL, Preco DECIMAL(10,2) NOT NULL );"

/-- The lookup of part_000 line 104 spells the key column in lower case;
MySQL identifiers are case insensitive, so the behaviour is unchanged. -/
def legacySelectByIdSql : String := "SELECT * FROM produto WHERE id = ?"

def camposMsg : String := "Campos obrigatórios: Nome, Descricao, Preco"

def notFoundMsg : String := "Produto não encontrado"

def updatedMsg : String := "Produto atualizado com sucesso"

def deletedMsg : String := "Produto deletado com sucesso"

def initOkMsg : String := "Banco de dados e tabela criados com sucesso."

/-- Stand-in for the driver message when the produto table does not exist. -/
def tableMissingMsg : String := "ER_NO_SUCH_TABLE"

/-- Stand-in for the driver message when the schema named in USE is absent. -/
def dbMissingMsg : String := "ER_BAD_DB_ERROR"

/-- Stand-in for the client-side refusal of an undefined bind parameter. -/
def bindUndefinedMsg : String := "Bind parameters must not contain undefined"

/-- Stand-in for the server rejection of NULL in a NOT NULL column. -/
def nullColumnMsg : String := "ER_BAD_NULL_ERROR"

namespace server

/-- GET /, server.js lines 51 to 53. -/
def rootHandler (db : Db) : Outcome :=
  { status := 200, body := .text ("API rodando com sucesso 🚀"), db := db, trace := [] }

/-- POST /init-db, server.js lines 70 to 87: one multi-statement query that
creates the database and the table when absent.  A table created by this
call starts empty with the counter at one; an existing table is untouched. -/
def initDb (cfg : Config) (db : Db) : Outcome :=
  { status := 200,
    body := .text initOkMsg,
    db := { dbExists := true, tableExists := true,
            rows := if db.tableExists then db.rows else [],
            nextId := if db.tableExists then db.nextId else 1,
            issued := db.issued },
    trace := [{ sql := createDbSql cfg.dbName, params := [] }] }

/-- GET /produtos, server.js lines 102 to 109. -/
def getProdutos (db : Db) : Outcome :=
  if db.tableExists then
    { status := 200, body := .jsonRows db.rows, db := db,
      trace := [{ sql := selectAllSql, params := [] }] }
  else
    { status := 500, body := .jsonError tableMissingMsg, db := db,
      trace := [{ sql := selectAllSql, params := [] }] }

/-- GET /produtos/:id, server.js lines 129 to 137: rows[0] is the first row
the SELECT matches; an empty result set answers 404. -/
def getProdutoById (id : Nat) (db : Db) : Outcome :=
  if db.tableExists then
    match db.rows.filter (fun r => r.Id == id) with
    | [] =>
      { status := 404, body := .jsonError notFoundMsg, db := db,
        trace := [{ sql := selectByIdSql, params := [.str (toString id)] }] }
    | r :: _ =>
      { status := 200, body := .jsonRow r, db := db,
        trace := [{ sql := selectByIdSql, params := [.str (toString id)] }] }
  else
    { status := 500, body := .jsonError tableMissingMsg, db := db,
      trace := [{ sql := selectByIdSql, params := [.str (toString id)] }] }

/-- POST /produtos, server.js lines 168 to 182: answer 400 before any query
when the guard fires, otherwise INSERT and answer 201 with insertId. -/
def postProduto (b : ReqBody) (db : Db) : Outcome :=
  if missingFields b then
    { status := 400, body := .jsonError camposMsg, db := db, trace := [] }
  else if db.tableExists then
    { status := 201, body := .jsonId db.nextId,
      db := { db with
              rows := db.rows ++ [{ Id := db.nextId, Nome := b.Nome,
                                    Descricao := b.Descricao, Preco := b.Preco }],
              nextId := db.nextId + 1,
              issued := db.issued ++ [db.nextId] },
      trace := [{ sql := insertSql, params := [b.Nome, b.Descricao, b.Preco] }] }
  else
    { status := 500, body := .jsonError tableMissingMsg, db := db,
      trace := [{ sql := insertSql, params := [b.Nome, b.Descricao, b.Preco] }] }

/-- PUT /produtos/:id, server.js lines 221 to 236: same guard as the POST,
then UPDATE; zero affected (matched) rows answers 404. -/
def putProduto (id : Nat) (b : ReqBody) (db : Db) : Outcome :=
  if missingFields b then
    { status := 400, body := .jsonError camposMsg, db := db, trace := [] }
  else if db.tableExists then
    if (db.rows.filter (fun r => r.Id == id)).length == 0 then
      { status := 404, body := .jsonError notFoundMsg, db := db,
        trace := [{ sql := updateSql,
                    params := [b.Nome, b.Descricao, b.Preco, .str (toString id)] }] }
    else
      { status := 200, body := .jsonMessage updatedMsg,
        db := { db with
                rows := db.rows.map (fun r =>
                  if r.Id == id then
                    { r with Nome := b.Nome, Descricao := b.Descricao, Preco := b.Preco }
                  else r) },
        trace := [{ sql := updateSql,
                    params := [b.Nome, b.Descricao, b.Preco, .str (toString id)] }] }
  else
    { status := 500, body := .jsonError tableMissingMsg, db := db,
      trace := [{ sql := updateSql,
                  params := [b.Nome, b.Descricao, b.Preco, .str (toString id)] }] }

/-- DELETE /produtos/:id, server.js lines 256 to 264. -/
def deleteProduto (id : Nat) (db : Db) : Outcome :=
  if db.tableExists then
    if (db.rows.filter (fun r => r.Id == id)).length == 0 then
      { status := 404, body := .jsonError notFoundMsg, db := db,
        trace := [{ sql := deleteSql, params := [.str (toString id)] }] }
    else
      { status := 200, body := .jsonMessage deletedMsg,
        db := { db with rows := db.rows.filter (fun r => !(r.Id == id)) },
        trace := [{ sql := deleteSql, params := [.str (toString id)] }] }
  else
    { status := 500, body := .jsonError tableMissingMsg, db := db,
      trace := [{ sql := deleteSql, params := [.str (toString id)] }] }

end server

namespace legacy

/-- The node driver refuses a statement whose bound parameters contain
undefined before sending anything to the server. -/
def hasUndefined (ps : List JsValue) : Bool :=
  ps.any (fun v => v == JsValue.undefined)

/-- POST /init-db, part_000 lines 49 to 63: same effect as the server.js
initializer, different literal SQL text. -/
def initDb (cfg : Config) (db : Db) : Outcome :=
  { status := 200,
    body := .text initOkMsg,
    db := { dbExists := true, tableExists := true,
            rows := if db.tableExists then db.rows else [],
            nextId := if db.tableExists then db.nextId else 1,
            issued := db.issued },
    trace := [{ sql := legacyCreateDbSql cfg.dbName, params := [] }] }

/-- GET /produtos, part_000 lines 74 to 82: USE the configured schema, then
SELECT.  A failing USE surfaces as 500 before the SELECT is issued. -/
def getProdutos (cfg : Config) (db : Db) : Outcome :=
  if !db.dbExists then
    { status := 500, body := .jsonError dbMissingMsg, db := db,
      trace := [{ sql := useDbSql cfg.dbName, params := [] }] }
  else if db.tableExists then
    { status := 200, body := .jsonRows db.rows, db := db,
      trace := [{ sql := useDbSql cfg.dbName, params := [] },
                { sql := selectAllSql, params := [] }] }
  else
    { status := 500, body := .jsonError tableMissingMsg, db := db,
      trace := [{ sql := useDbSql cfg.dbName, params := [] },
                { sql := selectAllSql, params := [] }] }

/-- GET /produtos/:id, part_000 lines 101 to 110. -/
def getProdutoById (cfg : Config) (id : Nat) (db : Db) : Outcome :=
  if !db.dbExists then
    { status := 500, body := .jsonError dbMissingMsg, db := db,
      trace := [{ sql := useDbSql cfg.dbName, params := [] }] }
  else if db.tableExists then
    match db.rows.filter (fun r => r.Id == id) with
    | [] =>
      { status := 404, body := .jsonError notFoundMsg, db := db,
        trace := [{ sql := useDbSql cfg.dbName, params := [] },
                  { sql := legacySelectByIdSql, params := [.str (toString id)] }] }
    | r :: _ =>
      { status := 200, body := .jsonRow r, db := db,
        trace := [{ sql := useDbSql cfg.dbName, params := [] },
                  { sql := legacySelectByIdSql, params := [.str (toString id)] }] }
  else
    { status := 500, body := .jsonError tableMissingMsg, db := db,
      trace := [{ sql := useDbSql cfg.dbName, params := [] },
                { sql := legacySelectByIdSql, params := [.str (toString id)] }] }

/-- POST /produtos, part_000 lines 138 to 150: no field validation at all.
The USE is issued for every request; an undefined bind parameter aborts
client side after it, a null one violates NOT NULL at the server, anything
else is inserted, empty strings included. -/
def postProduto (cfg : Config) (b : ReqBody) (db : Db) : Outcome :=
  if !db.dbExists then
    { status := 500, body := .jsonError dbMissingMsg, db := db,
      trace := [{ sql := useDbSql cfg.dbName, params := [] }] }
  else if hasUndefined [b.Nome, b.Descricao, b.Preco] then
    { status := 500, body := .jsonError bindUndefinedMsg, db := db,
      trace := [{ sql := useDbSql cfg.dbName, params := [] }] }
  else if !db.tableExists then
    { status := 500, body := .jsonError tableMissingMsg, db := db,
      trace := [{ sql := useDbSql cfg.dbName, params := [] },
                { sql := insertSql, params := [b.Nome, b.Descricao, b.Preco] }] }
  else if b.Nome == JsValue.null || b.Descricao == JsValue.null || b.Preco == JsValue.null then
    { status := 500, body := .jsonError nullColumnMsg, db := db,
      trace := [{ sql := useDbSql cfg.dbName, params := [] },
                { sql := insertSql, params := [b.Nome, b.Descricao, b.Preco] }] }
  else
    { status := 201, body := .jsonId db.nextId,
      db := { db with
              rows := db.rows ++ [{ Id := db.nextId, Nome := b.Nome,
                                    Descricao := b.Descricao, Preco := b.Preco }],
              nextId := db.nextId + 1,
              issued := db.issued ++ [db.nextId] },
      trace := [{ sql := useDbSql cfg.dbName, params := [] },
                { sql := insertSql, params := [b.Nome, b.Descricao, b.Preco] }] }

/-- PUT /produtos/:id, part_000 lines 186 to 199: again no field validation.
When no row matches, the UPDATE touches nothing and answers 404; when rows
match, a null parameter violates NOT NULL, otherwise the rows are
overwritten. -/
def putProduto (cfg : Config) (id : Nat) (b : ReqBody) (db : Db) : Outcome :=
  if !db.dbExists then
    { status := 500, body := .jsonError dbMissingMsg, db := db,
      trace := [{ sql := useDbSql cfg.dbName, params := [] }] }
  else if hasUndefined [b.Nome, b.Descricao, b.Preco] then
    { status := 500, body := .jsonError bindUndefinedMsg, db := db,
      trace := [{ sql := useDbSql cfg.dbName, params := [] }] }
  else if !db.tableExists then
    { status := 500, body := .jsonError tableMissingMsg, db := db,
      trace := [{ sql := useDbSql cfg.dbName, params := [] },
                { sql := updateSql,
                  params := [b.Nome, b.Descricao, b.Preco, .str (toString id)] }] }
  else if (db.rows.filter (fun r => r.Id == id)).length == 0 then
    { status := 404, body := .jsonError notFoundMsg, db := db,
      trace := [{ sql := useDbSql cfg.dbName, params := [] },
                { sql := updateSql,
                  params := [b.Nome, b.Descricao, b.Preco, .str (toString id)] }] }
  else if b.Nome == JsValue.null || b.Descricao == JsValue.null || b.Preco == JsValue.null then
    { status := 500, body := .jsonError nullColumnMsg, db := db,
      trace := [{ sql := useDbSql cfg.dbName, params := [] },
                { sql := updateSql,
                  params := [b.Nome, b.Descricao, b.Preco, .str (toString id)] }] }
  else
    { status := 200, body := .jsonMessage updatedMsg,
      db := { db with
              rows := db.rows.map (fun r =>
                if r.Id == id then
                  { r with Nome := b.Nome, Descricao := b.Descricao, Preco := b.Preco }
                else r) },
      trace := [{ sql := useDbSql cfg.dbName, params := [] },
                { sql := updateSql,
                  params := [b.Nome, b.Descricao, b.Preco, .str (toString id)] }] }

/-- DELETE /produtos/:id, part_000 lines 218 to 227. -/
def deleteProduto (cfg : Config) (id : Nat) (db : Db) : Outcome :=
  if !db.dbExists then
    { status := 500, body := .jsonError dbMissingMsg, db := db,
      trace := [{ sql := useDbSql cfg.dbName, params := [] }] }
  else if !db.tableExists then
    { status := 500, body := .jsonError tableMissingMsg, db := db,
      trace := [{ sql := useDbSql cfg.dbName, params := [] },
                { sql := deleteSql, params := [.str (toString id)] }] }
  else if (db.rows.filter (fun r => r.Id == id)).length == 0 then
    { status := 404, body := .jsonError notFoundMsg, db := db,
      trace := [{ sql := useDbSql cfg.dbName, params := [] },
                { sql := deleteSql, params := [.str (toString id)] }] }
  else
    { status := 200, body := .jsonMessage deletedMsg,
      db := { db with rows := db.rows.filter (fun r => !(r.Id == id)) },
      trace := [{ sql := useDbSql cfg.dbName, params := [] },
                { sql := deleteSql, params := [.str (toString id)] }] }

end legacy

/-- An inbound HTTP request of the API surface; remove is the DELETE verb. -/
inductive Request where
  | root : Request
  | initDb : Request
  | list : Request
  | getById : Nat → Request
  | create : ReqBody → Request
  | update : Nat → ReqBody → Request
  | remove : Nat → Request
deriving DecidableEq

/-- Dispatch of server.js: method and path to handler. -/
def handleServer (cfg : Config) (req : Request) (db : Db) : Outcome :=
  match req with
  | .root => server.rootHandler db
  | .initDb => server.initDb cfg db
  | .list => server.getProdutos db
  | .getById id => server.getProdutoById id db
  | .create b => server.postProduto b db
  | .update id b => server.putProduto id b db
  | .remove id => server.deleteProduto id db

/-- Dispatch of src/unnamed/part_000. -/
def handleLegacy (cfg : Config) (req : Request) (db : Db) : Outcome :=
  match req with
  | .root => { status := 404, body := .text (""), db := db, trace := [] }
  | .initDb => legacy.initDb cfg db
  | .list => legacy.getProdutos cfg db
  | .getById id => legacy.getProdutoById cfg id db
  | .create b => legacy.postProduto cfg b db
  | .update id b => legacy.putProduto cfg id b db
  | .remove id => legacy.deleteProduto cfg id db

/-- Every SQL text server.js can hand to the pool: five fixed request texts
and the init statement built from the configured schema name only. -/
def allowedSql (cfg : Config) : List String :=
  [createDbSql cfg.dbName, selectAllSql, selectByIdSql, insertSql, updateSql, deleteSql]

/-- Every SQL text the legacy entry point can hand to the pool. -/
def legacyAllowedSql (cfg : Config) : List String :=
  [legacyCreateDbSql cfg.dbName, useDbSql cfg.dbName, selectAllSql,
   legacySelectByIdSql, insertSql, updateSql, deleteSql]

/-- A fresh MySQL server before the schema exists. -/
def initialDb : Db :=
  { dbExists := false, tableExists := false, rows := [], nextId := 1, issued := [] }

/-- One request processed by server.js, viewed as a transition on the
database state. -/
inductive Step : Db → Db → Prop where
  | mk : ∀ (cfg : Config) (req : Request) (db : Db), Step db (handleServer cfg req db).db

/-- Database states reachable from a fresh server through server.js
requests. -/
inductive Reachable : Db → Prop where
  | base : Reachable initialDb
  | step : ∀ (db db2 : Db), Reachable db → Step db db2 → Reachable db2

/-- The data-model invariant the server.js handlers maintain: the counter is
positive and strictly above every issued id and every stored id, ids are
unique, and no stored field is SQL NULL. -/
def Inv (db : Db) : Prop :=
  1 ≤ db.nextId ∧
  (∀ i ∈ db.issued, 1 ≤ i ∧ i < db.nextId) ∧
  (∀ r ∈ db.rows, 1 ≤ r.Id ∧ r.Id < db.nextId) ∧
  (db.rows.map Row.Id).Nodup ∧
  (∀ r ∈ db.rows, r.Nome.isLooseNull = false ∧ r.Descricao.isLooseNull = false ∧
    r.Preco.isLooseNull = false) ∧
  (db.tableExists = false → db.rows = [] ∧ db.issued = [] ∧ db.nextId = 1)

/-- Iterated invocation of the server.js schema initializer. -/
def initIter (cfg : Config) : Nat → Db → Db
  | 0, db => db
  | n + 1, db => initIter cfg n (server.initDb cfg db).db

/-- Folding a sequence of POST /produtos bodies through the server.js
create handler. -/
def createAll (bs : List ReqBody) (db : Db) : Db :=
  bs.foldl (fun d b => (server.postProduto b d).db) db

/-- A sample configuration for concrete evaluations. -/
def cfg0 : Config := { dbName := "produtos" }

/-- An initialized schema with an empty produto table. -/
def emptyTableDb : Db :=
  { dbExists := true, tableExists := true, rows := [], nextId := 1, issued := [] }

/-- A sample persisted row. -/
def row1 : Row :=
  { Id := 1, Nome := .str "Caneta", Descricao := .str "Azul", Preco := .num 2 }

/-- An initialized schema whose table holds exactly row1. -/
def oneRowDb : Db :=
  { dbExists := true, tableExists := true, rows := [row1], nextId := 2, issued := [1] }

/-- A request body whose Nome field is absent. -/
def bodyNoNome : ReqBody :=
  { Nome := .undefined, Descricao := .str "Azul", Preco := .num 2 }

/-- A sample valid request body. -/
def body0 : ReqBody :=
  { Nome := .str "Lapis", Descricao := .str "Preto", Preco := .num 3 }

/-- A truthy JavaScript value is neither null nor undefined. -/
theorem truthy_not_looseNull (v : JsValue) (h : v.truthy = true) : v.isLooseNull = false := by
  cases v <;> simp_all [JsValue.truthy, JsValue.isLooseNull]

/-- A body passes the guard exactly when Nome and Descricao are truthy and
Preco is neither null nor undefined. -/
theorem missingFields_eq_false_iff (b : ReqBody) :
    missingFields b = false ↔
      b.Nome.truthy = true ∧ b.Descricao.truthy = true ∧ b.Preco.isLooseNull = false := by
  simp [missingFields, and_assoc]

/-- A WHERE Id = ? lookup matches nothing when no row carries the id. -/
theorem filter_id_eq_nil (rows : List Row) (id : Nat) (h : ∀ r ∈ rows, r.Id ≠ id) :
    rows.filter (fun r => r.Id == id) = [] :=
  List.filter_eq_nil_iff.mpr (fun r hr => by simp [h r hr])

/-- On a table with unique ids, a WHERE Id = ? lookup returns exactly the
one row carrying the id. -/
theorem filter_id_singleton (rows : List Row) (id : Nat) (r : Row)
    (hmem : r ∈ rows) (hid : r.Id = id) (hnd : (rows.map Row.Id).Nodup) :
    rows.filter (fun x => x.Id == id) = [r] := by
  induction rows with
  | nil => cases hmem
  | cons a tl ih =>
    rw [List.map_cons, List.nodup_cons] at hnd
    rcases List.mem_cons.mp hmem with h | h
    · subst h
      have htl : tl.filter (fun x => x.Id == id) = [] := by
        apply List.filter_eq_nil_iff.mpr
        intro x hx
        simp only [beq_iff_eq]
        intro hxid
        exact hnd.1 (hid ▸ hxid ▸ List.mem_map_of_mem Row.Id hx)
      rw [List.filter_cons_of_pos (by simp [hid]), htl]
    · have ha : ¬ ((fun x => x.Id == id) a = true) := by
        simp only [beq_iff_eq]
        intro haid
        exact hnd.1 (haid ▸ hid ▸ List.mem_map_of_mem Row.Id h)
      rw [List.filter_cons, if_neg ha]
      exact ih h hnd.2

end ApiAws

namespace ApiAws

/-- C1 fails as stated over the cited part_000 Create handler: a POST whose
Nome is the empty string is not rejected with 400 before any query; the
handler issues the USE and INSERT statements, answers 201, and persists a
row. -/
theorem C1_counterexample :
    (legacy.postProduto cfg0
      { Nome := .str "", Descricao := .str "Azul", Preco := .num 2 } emptyTableDb).status = 201 ∧
    (legacy.postProduto cfg0
      { Nome := .str "", Descricao := .str "Azul", Preco := .num 2 } emptyTableDb).trace ≠ [] ∧
    (legacy.postProduto cfg0
      { Nome := .str "", Descricao := .str "Azul", Preco := .num 2 } emptyTableDb).db.rows ≠
      emptyTableDb.rows := by
  decide

/-- C1 (amended to the server.js handlers): every Create or Update request
whose Nome or Descricao is absent or empty, or whose Preco is absent or
null, is answered 400 with an empty query trace and an unchanged database
state, so nothing is inserted or modified. -/
theorem C1_server_validation (b : ReqBody) (db : Db) (id : Nat)
    (h : b.Nome = JsValue.undefined ∨ b.Nome = JsValue.str "" ∨
         b.Descricao = JsValue.undefined ∨ b.Descricao = JsValue.str "" ∨
         b.Preco = JsValue.undefined ∨ b.Preco = JsValue.null) :
    (server.postProduto b db).status = 400 ∧ (server.postProduto b db).trace = [] ∧
    (server.postProduto b db).db = db ∧
    (server.putProduto id b db).status = 400 ∧ (server.putProduto id b db).trace = [] ∧
    (server.putProduto id b db).db = db := by
  have hm : missingFields b = true := by
    rcases h with h | h | h | h | h | h <;>
      simp [missingFields, h, JsValue.truthy, JsValue.isLooseNull]
  simp [server.postProduto, server.putProduto, hm]

/-- Witness for C1 at a concrete body with an absent Nome. -/
theorem C1_server_validation_witness :
    (bodyNoNome.Nome = JsValue.undefined ∨ bodyNoNome.Nome = JsValue.str "" ∨
     bodyNoNome.Descricao = JsValue.undefined ∨ bodyNoNome.Descricao = JsValue.str "" ∨
     bodyNoNome.Preco = JsValue.undefined ∨ bodyNoNome.Preco = JsValue.null) ∧
    ((server.postProduto bodyNoNome emptyTableDb).status = 400 ∧
     (server.postProduto bodyNoNome emptyTableDb).trace = [] ∧
     (server.postProduto bodyNoNome emptyTableDb).db = emptyTableDb ∧
     (server.putProduto 1 bodyNoNome emptyTableDb).status = 400 ∧
     (server.putProduto 1 bodyNoNome emptyTableDb).trace = [] ∧
     (server.putProduto 1 bodyNoNome emptyTableDb).db = emptyTableDb) :=
  ⟨Or.inl rfl, C1_server_validation bodyNoNome emptyTableDb 1 (Or.inl rfl)⟩

/-- C2: on a table with unique ids, GetById answers 200 with the matching
product when a row with the requested Id exists, answers 404 when no row
matches, and in the latter case never returns any product. -/
theorem C2_getById (id : Nat) (db : Db)
    (ht : db.tableExists = true) (hnd : (db.rows.map Row.Id).Nodup) :
    (∀ r ∈ db.rows, r.Id = id →
      (server.getProdutoById id db).status = 200 ∧
      (server.getProdutoById id db).body = RespBody.jsonRow r) ∧
    ((∀ r ∈ db.rows, r.Id ≠ id) →
      (server.getProdutoById id db).status = 404 ∧
      ∀ r : Row, (server.getProdutoById id db).body ≠ RespBody.jsonRow r) := by
  constructor
  · intro r hr hrid
    have hf := filter_id_singleton db.rows id r hr hrid hnd
    simp [server.getProdutoById, ht, hf]
  · intro hno
    have hf := filter_id_eq_nil db.rows id hno
    simp [server.getProdutoById, ht, hf]

/-- Witness for C2 on a one-row table, for an existing and a missing id. -/
theorem C2_getById_witness :
    oneRowDb.tableExists = true ∧ (oneRowDb.rows.map Row.Id).Nodup ∧
    ((server.getProdutoById 1 oneRowDb).status = 200 ∧
      (server.getProdutoById 1 oneRowDb).body = RespBody.jsonRow row1) ∧
    ((server.getProdutoById 2 oneRowDb).status = 404 ∧
      ∀ r : Row, (server.getProdutoById 2 oneRowDb).body ≠ RespBody.jsonRow r) :=
  ⟨rfl, by decide,
   (C2_getById 1 oneRowDb rfl (by decide)).1 row1 (by decide) rfl,
   (C2_getById 2 oneRowDb rfl (by decide)).2 (by decide)⟩

/-- C3: Update with a valid field triple on an id no row carries answers
404 (zero rows affected) and leaves the whole table state unchanged. -/
theorem C3_update_nonexistent (id : Nat) (b : ReqBody) (db : Db)
    (ht : db.tableExists = true) (hb : missingFields b = false)
    (hid : ∀ r ∈ db.rows, r.Id ≠ id) :
    (server.putProduto id b db).status = 404 ∧ (server.putProduto id b db).db = db := by
  have hf := filter_id_eq_nil db.rows id hid
  simp [server.putProduto, hb, ht, hf]

/-- Witness for C3: updating id 5 on a table holding only id 1. -/
theorem C3_witness :
    oneRowDb.tableExists = true ∧ missingFields body0 = false ∧
    (∀ r ∈ oneRowDb.rows, r.Id ≠ 5) ∧
    ((server.putProduto 5 body0 oneRowDb).status = 404 ∧
      (server.putProduto 5 body0 oneRowDb).db = oneRowDb) :=
  ⟨rfl, by decide, by decide,
    C3_update_nonexistent 5 body0 oneRowDb rfl (by decide) (by decide)⟩

/-- C4: after a Delete of an id succeeds, a second Delete of the same id
answers 404 and the table state after the second call equals the state
after the first. -/
theorem C4_delete_idempotent (id : Nat) (db : Db)
    (h : (server.deleteProduto id db).status = 200) :
    (server.deleteProduto id (server.deleteProduto id db).db).status = 404 ∧
    (server.deleteProduto id (server.deleteProduto id db).db).db =
      (server.deleteProduto id db).db := by
  by_cases ht : db.tableExists
  · by_cases hz : (db.rows.filter (fun r => r.Id == id)).length = 0
    · exfalso
      simp [server.deleteProduto, ht, hz] at h
    · have hdb1 : (server.deleteProduto id db).db =
          { db with rows := db.rows.filter (fun r => !(r.Id == id)) } := by
        simp [server.deleteProduto, ht, hz]
      have hf2 : ((db.rows.filter (fun r => !(r.Id == id))).filter
          (fun r => r.Id == id)).length = 0 := by
        rw [List.length_eq_zero]
        apply List.filter_eq_nil_iff.mpr
        intro x hx
        have hx2 := (List.mem_filter.mp hx).2
        simp at hx2 ⊢
        exact hx2
      rw [hdb1]
      simp [server.deleteProduto, ht, hf2]
  · exfalso
    simp [server.deleteProduto, ht] at h

/-- Witness for C4: deleting id 1 twice on a one-row table. -/
theorem C4_witness :
    (server.deleteProduto 1 oneRowDb).status = 200 ∧
    ((server.deleteProduto 1 (server.deleteProduto 1 oneRowDb).db).status = 404 ∧
      (server.deleteProduto 1 (server.deleteProduto 1 oneRowDb).db).db =
        (server.deleteProduto 1 oneRowDb).db) :=
  ⟨by decide, C4_delete_idempotent 1 oneRowDb (by decide)⟩

/-- Each valid Create on an existing table adds exactly one row and keeps
the table existing. -/
theorem createAll_length (bs : List ReqBody) (db : Db)
    (ht : db.tableExists = true) (hbs : ∀ b ∈ bs, missingFields b = false) :
    (createAll bs db).tableExists = true ∧
    (createAll bs db).rows.length = db.rows.length + bs.length := by
  induction bs generalizing db with
  | nil => simp [createAll, ht]
  | cons b tl ih =>
    have hb : missingFields b = false := hbs b (List.mem_cons_self b tl)
    have hstep1 : (server.postProduto b db).db.tableExists = true := by
      simp [server.postProduto, hb, ht]
    have hstep2 : (server.postProduto b db).db.rows.length = db.rows.length + 1 := by
      simp [server.postProduto, hb, ht]
    have hrec := ih (server.postProduto b db).db hstep1
      (fun x hx => hbs x (List.mem_cons_of_mem b hx))
    refine ⟨?_, ?_⟩
    · simpa [createAll, List.foldl_cons] using hrec.1
    · have : createAll (b :: tl) db = createAll tl (server.postProduto b db).db := by
        simp [createAll, List.foldl_cons]
      rw [this, hrec.2, hstep2, List.length_cons]
      omega

/-- C5: List on an empty table answers 200 with an empty JSON array, and
after N valid Creates from an empty table (no deletes) List answers 200
with exactly N entries. -/
theorem C5_list (db : Db) (ht : db.tableExists = true) (he : db.rows = [])
    (bs : List ReqBody) (hbs : ∀ b ∈ bs, missingFields b = false) :
    ((server.getProdutos db).status = 200 ∧
      (server.getProdutos db).body = RespBody.jsonRows []) ∧
    ((server.getProdutos (createAll bs db)).status = 200 ∧
      (server.getProdutos (createAll bs db)).body =
        RespBody.jsonRows (createAll bs db).rows ∧
      (createAll bs db).rows.length = bs.length) := by
  obtain ⟨ht2, hlen⟩ := createAll_length bs db ht hbs
  refine ⟨⟨?_, ?_⟩, ?_, ?_, ?_⟩
  · simp [server.getProdutos, ht]
  · simp [server.getProdutos, ht, he]
  · simp [server.getProdutos, ht2]
  · simp [server.getProdutos, ht2]
  · rw [hlen, he]
    simp

/-- Witness for C5 with two concrete creates from the empty table. -/
theorem C5_witness :
    emptyTableDb.tableExists = true ∧ emptyTableDb.rows = [] ∧
    (∀ b ∈ [body0, body0], missingFields b = false) ∧
    (((server.getProdutos emptyTableDb).status = 200 ∧
      (server.getProdutos emptyTableDb).body = RespBody.jsonRows []) ∧
    ((server.getProdutos (createAll [body0, body0] emptyTableDb)).status = 200 ∧
      (server.getProdutos (createAll [body0, body0] emptyTableDb)).body =
        RespBody.jsonRows (createAll [body0, body0] emptyTableDb).rows ∧
      (createAll [body0, body0] emptyTableDb).rows.length = [body0, body0].length)) :=
  ⟨rfl, rfl, by decide,
    C5_list emptyTableDb rfl rfl [body0, body0] (by decide)⟩

/-- C6: Create with a valid field triple answers 201 with the generated id,
and an immediately following GetById on that id answers 200 with a product
whose Nome, Descricao and Preco equal the submitted values exactly. -/
theorem C6_create_get_roundtrip (b : ReqBody) (db : Db)
    (ht : db.tableExists = true) (hb : missingFields b = false)
    (hlt : ∀ r ∈ db.rows, r.Id < db.nextId) :
    (server.postProduto b db).status = 201 ∧
    (server.postProduto b db).body = RespBody.jsonId db.nextId ∧
    (server.getProdutoById db.nextId (server.postProduto b db).db).status = 200 ∧
    (server.getProdutoById db.nextId (server.postProduto b db).db).body =
      RespBody.jsonRow
        { Id := db.nextId, Nome := b.Nome, Descricao := b.Descricao, Preco := b.Preco } := by
  have hnil := filter_id_eq_nil db.rows db.nextId (fun r hr => Nat.ne_of_lt (hlt r hr))
  have hf : ((server.postProduto b db).db).rows.filter (fun r => r.Id == db.nextId) =
      [{ Id := db.nextId, Nome := b.Nome, Descricao := b.Descricao, Preco := b.Preco }] := by
    simp only [server.postProduto, hb, ht]
    simp [List.filter_append, hnil]
  have ht2 : (server.postProduto b db).db.tableExists = true := by
    simp [server.postProduto, hb, ht]
  refine ⟨?_, ?_, ?_, ?_⟩
  · simp [server.postProduto, hb, ht]
  · simp [server.postProduto, hb, ht]
  · simp [server.getProdutoById, ht2, hf]
  · simp [server.getProdutoById, ht2, hf]

/-- Witness for C6 at a concrete body on the empty table. -/
theorem C6_witness :
    emptyTableDb.tableExists = true ∧ missingFields body0 = false ∧
    (∀ r ∈ emptyTableDb.rows, r.Id < emptyTableDb.nextId) ∧
    ((server.postProduto body0 emptyTableDb).status = 201 ∧
      (server.postProduto body0 emptyTableDb).body = RespBody.jsonId emptyTableDb.nextId ∧
      (server.getProdutoById emptyTableDb.nextId
          (server.postProduto body0 emptyTableDb).db).status = 200 ∧
      (server.getProdutoById emptyTableDb.nextId
          (server.postProduto body0 emptyTableDb).db).body =
        RespBody.jsonRow
          { Id := emptyTableDb.nextId, Nome := body0.Nome, Descricao := body0.Descricao,
            Preco := body0.Preco }) :=
  ⟨rfl, by decide, by decide,
    C6_create_get_roundtrip body0 emptyTableDb rfl (by decide) (by decide)⟩

end ApiAws

namespace ApiAws

/-- The invariant holds on a fresh server. -/
theorem inv_initialDb : Inv initialDb := by
  simp [Inv, initialDb]

/-- The initializer preserves the invariant. -/
theorem inv_initDb (cfg : Config) (db : Db) (h : Inv db) :
    Inv (server.initDb cfg db).db := by
  by_cases ht : db.tableExists <;> simp_all [Inv, server.initDb]

/-- The Create handler preserves the invariant. -/
theorem inv_post (b : ReqBody) (db : Db) (h : Inv db) :
    Inv (server.postProduto b db).db := by
  by_cases hm : missingFields b
  · simpa [server.postProduto, hm] using h
  · by_cases ht : db.tableExists
    · obtain ⟨h1, h2, h3, h4, h5, h6⟩ := h
      obtain ⟨hn, hd, hp⟩ := (missingFields_eq_false_iff b).mp (by simpa using hm)
      simp only [server.postProduto, hm, ht, if_false, if_true, Bool.false_eq_true,
        ite_true, ite_false]
      refine ⟨le_trans h1 (Nat.le_succ _), ?_, ?_, ?_, ?_, ?_⟩
      · intro i hi
        rcases List.mem_append.mp hi with hi | hi
        · exact ⟨(h2 i hi).1, Nat.lt_succ_of_lt (h2 i hi).2⟩
        · rcases List.mem_singleton.mp hi with rfl
          exact ⟨h1, Nat.lt_succ_self _⟩
      · intro r hr
        rcases List.mem_append.mp hr with hr | hr
        · exact ⟨(h3 r hr).1, Nat.lt_succ_of_lt (h3 r hr).2⟩
        · rcases List.mem_singleton.mp hr with rfl
          exact ⟨h1, Nat.lt_succ_self _⟩
      · rw [List.map_append]
        simp only [List.map_cons, List.map_nil]
        rw [List.nodup_append]
        refine ⟨h4, List.nodup_singleton _, ?_⟩
        intro x hx hx2
        rcases List.mem_singleton.mp hx2 with rfl
        rcases List.mem_map.mp hx with ⟨r, hr, hrid⟩
        exact absurd ((hrid ▸ (h3 r hr).2)) (lt_irrefl _)
      · intro r hr
        rcases List.mem_append.mp hr with hr | hr
        · exact h5 r hr
        · rcases List.mem_singleton.mp hr with rfl
          exact ⟨truthy_not_looseNull _ hn, truthy_not_looseNull _ hd, hp⟩
      · intro hc
        simp at hc
    · simpa [server.postProduto, hm, ht] using h

/-- The Update handler preserves the invariant. -/
theorem inv_put (id : Nat) (b : ReqBody) (db : Db) (h : Inv db) :
    Inv (server.putProduto id b db).db := by
  by_cases hm : missingFields b
  · simpa [server.putProduto, hm] using h
  · by_cases ht : db.tableExists
    · by_cases hz : (db.rows.filter (fun r => r.Id == id)).length == 0
      · simpa [server.putProduto, hm, ht, hz] using h
      · obtain ⟨h1, h2, h3, h4, h5, h6⟩ := h
        obtain ⟨hn, hd, hp⟩ := (missingFields_eq_false_iff b).mp (by simpa using hm)
        simp only [server.putProduto, hm, ht, hz, Bool.false_eq_true, if_false, if_true,
          ite_true, ite_false]
        have hIdmap : (db.rows.map (fun r =>
            if r.Id == id then
              { r with Nome := b.Nome, Descricao := b.Descricao, Preco := b.Preco }
            else r)).map Row.Id = db.rows.map Row.Id := by
          rw [List.map_map]
          apply List.map_congr_left
          intro r hr
          by_cases hrid : r.Id = id <;> simp [hrid]
        refine ⟨h1, h2, ?_, ?_, ?_, ?_⟩
        · intro r hr
          rcases List.mem_map.mp hr with ⟨x, hx, rfl⟩
          by_cases hxid : x.Id = id <;> simpa [hxid] using h3 x hx
        · rw [hIdmap]
          exact h4
        · intro r hr
          rcases List.mem_map.mp hr with ⟨x, hx, rfl⟩
          by_cases hxid : x.Id = id
          · simp only [hxid, beq_self_eq_true, if_true, ite_true]
            exact ⟨truthy_not_looseNull _ hn, truthy_not_looseNull _ hd, hp⟩
          · simpa [hxid] using h5 x hx
        · intro hc
          simp at hc
    · simpa [server.putProduto, hm, ht] using h

/-- The Delete handler preserves the invariant. -/
theorem inv_delete (id : Nat) (db : Db) (h : Inv db) :
    Inv (server.deleteProduto id db).db := by
  by_cases ht : db.tableExists
  · by_cases hz : (db.rows.filter (fun r => r.Id == id)).length == 0
    · simpa [server.deleteProduto, ht, hz] using h
    · obtain ⟨h1, h2, h3, h4, h5, h6⟩ := h
      simp only [server.deleteProduto, ht, hz, Bool.false_eq_true, if_false, if_true,
        ite_true, ite_false]
      refine ⟨h1, h2, ?_, ?_, ?_, ?_⟩
      · intro r hr
        exact h3 r (List.mem_of_mem_filter hr)
      · exact List.Nodup.sublist (List.Sublist.map Row.Id (List.filter_sublist _)) h4
      · intro r hr
        exact h5 r (List.mem_of_mem_filter hr)
      · intro hc
        simp at hc
  · simpa [server.deleteProduto, ht] using h

/-- Every server.js request preserves the invariant. -/
theorem inv_step (db db2 : Db) (h : Inv db) (hs : Step db db2) : Inv db2 := by
  cases hs with
  | mk cfg req db =>
    cases req with
    | root => simpa [handleServer, server.rootHandler] using h
    | initDb => exact inv_initDb cfg db h
    | list =>
      by_cases ht : db.tableExists <;> simpa [handleServer, server.getProdutos, ht] using h
    | getById id =>
      by_cases ht : db.tableExists
      · rcases hf : db.rows.filter (fun r => r.Id == id) with _ | ⟨r, tl⟩ <;>
          simpa [handleServer, server.getProdutoById, ht, hf] using h
      · simpa [handleServer, server.getProdutoById, ht] using h
    | create b => exact inv_post b db h
    | update id b => exact inv_put id b db h
    | remove id => exact inv_delete id db h

/-- The invariant holds in every reachable state. -/
theorem reachable_inv (db : Db) (h : Reachable db) : Inv db := by
  induction h with
  | base => exact inv_initialDb
  | step db db2 hr hs ih => exact inv_step db db2 ih hs

end ApiAws

namespace ApiAws

/-- C7: in every reachable state each Id identifies at most one row and no
stored row has a null Nome, Descricao or Preco; and every successful Create
answers with the current AUTO_INCREMENT value, a positive id that was never
issued by any earlier successful Create. -/
theorem C7_ids_and_nonnull (db : Db) (hr : Reachable db) :
    ((db.rows.map Row.Id).Nodup ∧
      ∀ r ∈ db.rows, r.Nome.isLooseNull = false ∧ r.Descricao.isLooseNull = false ∧
        r.Preco.isLooseNull = false) ∧
    ∀ b : ReqBody, (server.postProduto b db).status = 201 →
      (server.postProduto b db).body = RespBody.jsonId db.nextId ∧
      1 ≤ db.nextId ∧ db.nextId ∉ db.issued := by
  obtain ⟨h1, h2, h3, h4, h5, h6⟩ := reachable_inv db hr
  refine ⟨⟨h4, h5⟩, ?_⟩
  intro b hb
  by_cases hm : missingFields b
  · exfalso
    simp [server.postProduto, hm] at hb
  · by_cases ht : db.tableExists
    · refine ⟨by simp [server.postProduto, hm, ht], h1, ?_⟩
      intro hmem
      exact absurd (h2 db.nextId hmem).2 (lt_irrefl _)
    · exfalso
      simp [server.postProduto, hm, ht] at hb

/-- Witness for C7 at the reachable state right after a first init-db. -/
theorem C7_witness :
    Reachable (server.initDb cfg0 initialDb).db ∧
    ((((server.initDb cfg0 initialDb).db).rows.map Row.Id).Nodup ∧
      ∀ r ∈ (server.initDb cfg0 initialDb).db.rows,
        r.Nome.isLooseNull = false ∧ r.Descricao.isLooseNull = false ∧
          r.Preco.isLooseNull = false) ∧
    ∀ b : ReqBody,
      (server.postProduto b (server.initDb cfg0 initialDb).db).status = 201 →
        (server.postProduto b (server.initDb cfg0 initialDb).db).body =
          RespBody.jsonId (server.initDb cfg0 initialDb).db.nextId ∧
        1 ≤ (server.initDb cfg0 initialDb).db.nextId ∧
        (server.initDb cfg0 initialDb).db.nextId ∉ (server.initDb cfg0 initialDb).db.issued := by
  have hr : Reachable (server.initDb cfg0 initialDb).db :=
    Reachable.step initialDb (server.initDb cfg0 initialDb).db Reachable.base
      (Step.mk cfg0 Request.initDb initialDb)
  exact ⟨hr, C7_ids_and_nonnull (server.initDb cfg0 initialDb).db hr⟩

/-- C8: InitializeSchema always answers 200, a second run on the state left
by a first run changes nothing, and n further invocations after a first one
leave exactly the state of that first run. -/
theorem C8_initDb_idempotent (cfg : Config) (db : Db) (n : Nat) :
    (server.initDb cfg db).status = 200 ∧
    (server.initDb cfg (server.initDb cfg db).db).db = (server.initDb cfg db).db ∧
    initIter cfg (n + 1) db = (server.initDb cfg db).db := by
  have hidem : ∀ d : Db, (server.initDb cfg (server.initDb cfg d).db).db =
      (server.initDb cfg d).db := by
    intro d
    simp [server.initDb]
  refine ⟨rfl, hidem db, ?_⟩
  induction n generalizing db with
  | zero => simp [initIter]
  | succ m ih =>
    calc initIter cfg (m + 1 + 1) db
        = initIter cfg (m + 1) (server.initDb cfg db).db := by simp [initIter]
      _ = (server.initDb cfg (server.initDb cfg db).db).db := ih (server.initDb cfg db).db
      _ = (server.initDb cfg db).db := hidem db

/-- C9: for every request and state, every SQL text either entry point
issues lies in a fixed list that depends only on the configured schema
name, never on user-supplied values; user values travel only in the bound
parameter lists. -/
theorem C9_sql_constant (cfg : Config) (req : Request) (db : Db) :
    (∀ q ∈ (handleServer cfg req db).trace, q.sql ∈ allowedSql cfg) ∧
    (∀ q ∈ (handleLegacy cfg req db).trace, q.sql ∈ legacyAllowedSql cfg) := by
  constructor <;>
  · intro q hq
    cases req <;>
      simp only [handleServer, handleLegacy, server.rootHandler, server.initDb,
        server.getProdutos, server.getProdutoById, server.postProduto, server.putProduto,
        server.deleteProduto, legacy.initDb, legacy.getProdutos, legacy.getProdutoById,
        legacy.postProduto, legacy.putProduto, legacy.deleteProduto] at hq <;>
      repeat' split at hq
    all_goals simp at hq
    all_goals try rcases hq with hq | hq
    all_goals try subst hq
    all_goals simp [allowedSql, legacyAllowedSql]

end ApiAws

namespace ApiAws

/-- Witness for C9 on the List request against both entry points. -/
theorem C9_witness :
    (Query.mk selectAllSql []) ∈ (handleServer cfg0 Request.list emptyTableDb).trace ∧
    (Query.mk (useDbSql cfg0.dbName) []) ∈ (handleLegacy cfg0 Request.list emptyTableDb).trace ∧
    (Query.mk selectAllSql []).sql ∈ allowedSql cfg0 ∧
    (Query.mk (useDbSql cfg0.dbName) []).sql ∈ legacyAllowedSql cfg0 :=
  ⟨by decide, by decide,
   (C9_sql_constant cfg0 Request.list emptyTableDb).1 (Query.mk selectAllSql []) (by decide),
   (C9_sql_constant cfg0 Request.list emptyTableDb).2 (Query.mk (useDbSql cfg0.dbName) [])
     (by decide)⟩

/-- C10: a Preco equal to the number 0 passes the Create and Update guards
(only a null or absent Preco is rejected) and is accepted and persisted
with 201 resp. 200, while an empty-string Nome or Descricao, or a Nome or
Descricao equal to the number 0, is rejected with 400 by both handlers. -/
theorem C10_zero_preco (db : Db) (ht : db.tableExists = true)
    (n d : JsValue) (hn : n.truthy = true) (hd : d.truthy = true) :
    ((server.postProduto { Nome := n, Descricao := d, Preco := .num 0 } db).status = 201 ∧
      ({ Id := db.nextId, Nome := n, Descricao := d, Preco := JsValue.num 0 } : Row) ∈
        (server.postProduto { Nome := n, Descricao := d, Preco := .num 0 } db).db.rows) ∧
    (∀ id : Nat, (∃ r ∈ db.rows, r.Id = id) →
      (server.putProduto id { Nome := n, Descricao := d, Preco := .num 0 } db).status = 200) ∧
    (∀ v p : JsValue,
      (server.postProduto { Nome := .str "", Descricao := v, Preco := p } db).status = 400 ∧
      (server.postProduto { Nome := .num 0, Descricao := v, Preco := p } db).status = 400 ∧
      (server.postProduto { Nome := v, Descricao := .str "", Preco := p } db).status = 400 ∧
      (server.postProduto { Nome := v, Descricao := .num 0, Preco := p } db).status = 400) ∧
    (∀ id : Nat, ∀ v p : JsValue,
      (server.putProduto id { Nome := .str "", Descricao := v, Preco := p } db).status = 400 ∧
      (server.putProduto id { Nome := .num 0, Descricao := v, Preco := p } db).status = 400 ∧
      (server.putProduto id { Nome := v, Descricao := .str "", Preco := p } db).status = 400 ∧
      (server.putProduto id { Nome := v, Descricao := .num 0, Preco := p } db).status = 400) := by
  have hm : missingFields { Nome := n, Descricao := d, Preco := JsValue.num 0 } = false := by
    simp [missingFields, hn, hd, JsValue.isLooseNull]
  refine ⟨⟨?_, ?_⟩, ?_, ?_, ?_⟩
  · simp [server.postProduto, hm, ht]
  · simp [server.postProduto, hm, ht]
  · intro id hex
    rcases hex with ⟨r, hr, hrid⟩
    have hne : db.rows.filter (fun x => x.Id == id) ≠ [] := by
      intro hnil
      have := List.filter_eq_nil_iff.mp hnil r hr
      simp [hrid] at this
    have hz : ¬ ((db.rows.filter (fun x => x.Id == id)).length = 0) := by
      rw [List.length_eq_zero]
      exact hne
    simp [server.putProduto, hm, ht, hz]
  · intro v p
    refine ⟨?_, ?_, ?_, ?_⟩ <;> simp [server.postProduto, missingFields, JsValue.truthy]
  · intro id v p
    refine ⟨?_, ?_, ?_, ?_⟩ <;> simp [server.putProduto, missingFields, JsValue.truthy]

/-- Witness for C10 on the one-row table with concrete truthy fields. -/
theorem C10_witness :
    oneRowDb.tableExists = true ∧
    (JsValue.str "Caneta").truthy = true ∧ (JsValue.str "Azul").truthy = true ∧
    (((server.postProduto
          { Nome := .str "Caneta", Descricao := .str "Azul", Preco := .num 0 }
          oneRowDb).status = 201 ∧
      ({ Id := oneRowDb.nextId, Nome := .str "Caneta", Descricao := .str "Azul",
         Preco := JsValue.num 0 } : Row) ∈
        (server.postProduto
          { Nome := .str "Caneta", Descricao := .str "Azul", Preco := .num 0 }
          oneRowDb).db.rows) ∧
    (∀ id : Nat, (∃ r ∈ oneRowDb.rows, r.Id = id) →
      (server.putProduto id
        { Nome := .str "Caneta", Descricao := .str "Azul", Preco := .num 0 }
        oneRowDb).status = 200) ∧
    (∀ v p : JsValue,
      (server.postProduto { Nome := .str "", Descricao := v, Preco := p } oneRowDb).status = 400 ∧
      (server.postProduto { Nome := .num 0, Descricao := v, Preco := p } oneRowDb).status = 400 ∧
      (server.postProduto { Nome := v, Descricao := .str "", Preco := p } oneRowDb).status = 400 ∧
      (server.postProduto { Nome := v, Descricao := .num 0, Preco := p } oneRowDb).status = 400) ∧
    (∀ id : Nat, ∀ v p : JsValue,
      (server.putProduto id { Nome := .str "", Descricao := v, Preco := p } oneRowDb).status = 400 ∧
      (server.putProduto id { Nome := .num 0, Descricao := v, Preco := p } oneRowDb).status = 400 ∧
      (server.putProduto id { Nome := v, Descricao := .str "", Preco := p } oneRowDb).status = 400 ∧
      (server.putProduto id { Nome := v, Descricao := .num 0, Preco := p } oneRowDb).status = 400)) :=
  ⟨rfl, by decide, by decide,
    C10_zero_preco oneRowDb rfl (.str "Caneta") (.str "Azul") (by decide) (by decide)⟩

end ApiAws
